import Mathlib

/-!
Verification of the archive-handling and sample-dispatch core
(`analyzer/windows/lib/common/zip_utils.py`) of the CAPEv2 in-guest agent.

The Python module is shallowly embedded: pure string manipulation is
translated to executable Lean functions; interaction with the filesystem,
the external 7-Zip tool and the process-launching collaborators is made
explicit by passing models of those collaborators as function arguments;
exceptions become an explicit `Option PyExc` component of each result;
side effects (running the tool, deleting a directory tree, extracting an
archive, moving a file, logging a skipped nested member) are recorded as
an explicit event trace.  Byte strings (`bytes` in Python) are modelled
with `String`.
-/

/-! ## Basic string helpers (executable stand-ins for Python primitives) -/

/-- Char-list version of "is this list a leading segment of that one". -/
def starts_with_chars : List Char → List Char → Bool
  | [], _ => true
  | _ :: _, [] => false
  | a :: as, b :: bs => a == b && starts_with_chars as bs

/-- Char-list substring test, used to model the Python `needle in haystack`
operator on `str`/`bytes`. -/
def has_sub_chars (needle : List Char) : List Char → Bool
  | [] => needle.isEmpty
  | c :: rest => starts_with_chars needle (c :: rest) || has_sub_chars needle rest

/-- Models Python `pat in s` (substring containment). -/
def contains_substr (s pat : String) : Bool :=
  has_sub_chars pat.toList s.toList

/-- Models Python `s.endswith(post)`. -/
def str_ends_with (s post : String) : Bool :=
  starts_with_chars post.toList.reverse s.toList.reverse

/-- Models Python `s.lower()` (the strings handled here are ASCII). -/
def lower_str (s : String) : String :=
  String.mk (s.toList.map Char.toLower)

/-- Models Python truthiness of an optional string option value
(`None` and `""` are falsy). -/
def truthy : Option String → Bool
  | Option.some s => !s.isEmpty
  | Option.none => false

/-- Splits a character list at every separator character (keeping empty
pieces), accumulator style. -/
def split_sep_aux (isSep : Char → Bool) : List Char → List Char → List String
  | [], acc => [String.mk acc.reverse]
  | c :: rest, acc =>
    if isSep c then String.mk acc.reverse :: split_sep_aux isSep rest []
    else split_sep_aux isSep rest (c :: acc)

/-- Models Python `s.split("\n")`. -/
def split_lines (s : String) : List String :=
  split_sep_aux (fun c => c == '\n') s.toList []

/-- Models `os.path.basename` under Windows path conventions (both `\` and
`/` separate components): the characters after the last separator. -/
def os_path_basename (p : String) : String :=
  String.mk ((p.toList.reverse.takeWhile fun c => !(c == '\\' || c == '/')).reverse)

/-- Models `os.path.dirname` under Windows path conventions: the characters
before the last separator. -/
def os_path_dirname (p : String) : String :=
  match p.toList.reverse.dropWhile (fun c => !(c == '\\' || c == '/')) with
  | [] => ""
  | _ :: t => String.mk t.reverse

/-- Models `os.path.join(a, b)` for the Windows guest. -/
def os_path_join (a b : String) : String := a ++ "\\" ++ b

/-- Path components of a Windows path (empty pieces dropped, as
`pathlib` does). -/
def path_components (p : String) : List String :=
  (split_sep_aux (fun c => c == '\\' || c == '/') p.toList []).filter (fun s => !s.isEmpty)

/-- Models `Path(p).match("local\\temp")` on the Windows guest: the pattern
is relative with two literal components, so it holds exactly when the
path's last two components are `local` and `temp`, case-insensitively. -/
def path_match_local_temp (p : String) : Bool :=
  match (path_components p).reverse with
  | t :: l :: _ => lower_str t == "temp" && lower_str l == "local"
  | _ => false

/-! ## Python exceptions -/

/-- The exception values the embedded code can raise.
`cuckooPackageError` models the repository's `CuckooPackageError`
(the spec's `InvalidArchive` class for the ZIP backend), `exception` a bare
`Exception(msg)`, `typeError` a `TypeError(msg)`. -/
inductive PyExc where
  | badZipfile
  | fileNotFound
  | runtimeError (msg : String)
  | cuckooPackageError (msg : String)
  | unboundLocalError
  | exception (msg : String)
  | typeError (msg : String)
deriving DecidableEq

/-! ## External 7-Zip tool backend: `extract_archive` -/

/-- Captured output streams of one external-tool invocation. -/
structure ToolRun where
  stdout : String
  stderr : String
deriving DecidableEq

/-- Observable actions of `extract_archive`: running the external tool with
a concrete argv, and `shutil.rmtree` on a directory. -/
inductive AEvent where
  | run (argv : List String)
  | rmtree (path : String)
deriving DecidableEq

/-- Embedding of `extract_archive(seven_zip_path, archive_path, extract_path,
password="infected")`.  The external tool is a parameter mapping an argv to
its captured stdout/stderr.  Returns the event trace plus the raised
exception, if any.  Mirrors the source: first run with a bare `-p`;
on "Wrong password" in stderr, delete the destination tree (unless the
path matches `local\temp`) and retry once with `-p{password}`; a second
"Wrong password" raises `Exception("Wrong password provided")`; otherwise
(first run only) "Can not open the file as archive" in stdout raises
`TypeError`. -/
def extract_archive (tool : List String → ToolRun)
    (seven_zip_path archive_path extract_path : String)
    (password : String := "infected") : List AEvent × Option PyExc :=
  let argv1 := [seven_zip_path, "x", "-p", "-y", "-o" ++ extract_path, archive_path]
  let r1 := tool argv1
  if contains_substr r1.stderr "Wrong password" then
    let rmEvs := if path_match_local_temp extract_path then [] else [AEvent.rmtree extract_path]
    let argv2 := [seven_zip_path, "x", "-p" ++ password, "-y", "-o" ++ extract_path, archive_path]
    let r2 := tool argv2
    if contains_substr r2.stderr "Wrong password" then
      (AEvent.run argv1 :: rmEvs ++ [AEvent.run argv2],
       Option.some (PyExc.exception "Wrong password provided"))
    else
      (AEvent.run argv1 :: rmEvs ++ [AEvent.run argv2], Option.none)
  else if contains_substr r1.stdout "Can not open the file as archive" then
    ([AEvent.run argv1], Option.some (PyExc.typeError "Unable to open the file as archive"))
  else
    ([AEvent.run argv1], Option.none)

/-! ## Native ZIP backend: `extract_zip`, `is_overwritten`

The filesystem is a fixed map from paths to file models.  A `ZipModel`
describes how `zipfile.ZipFile` behaves on that archive: its member list
with per-member encrypted flags (`infolist`/`namelist`), and the outcome of
the first and of the retried `extractall` call as a function of the
password handed to it (`extractall` can fail intermittently, which is why
the source retries a `RuntimeError` once; the two attempts are therefore
modelled separately).  Since the nested recursion of `extract_zip` only
inspects exception propagation, member names and password flow, extraction
side effects on the filesystem are recorded in the event trace rather than
threaded through the map. -/

/-- Outcomes `ZipFile.extractall` can have: success, `BadZipfile`, or
`RuntimeError` with a message. -/
inductive ExtractErr where
  | badZip
  | runtime (msg : String)
deriving DecidableEq

/-- Model of one archive file as seen through `zipfile.ZipFile`. -/
structure ZipModel where
  entries : List (String × Bool)
  extract1 : String → Option ExtractErr
  extract2 : String → Option ExtractErr

/-- The member names of the archive (`ZipFile.namelist`). -/
def ZipModel.names (z : ZipModel) : List String := z.entries.map Prod.fst

/-- Model of what opening a path with `ZipFile(path, "r")` yields:
a missing file (`FileNotFoundError`), a file that is not a ZIP container
(`BadZipfile`), or a readable archive. -/
inductive FileModel where
  | missing
  | notZip
  | zip (z : ZipModel)

/-- Observable actions of `extract_zip`: `shutil.move` of a
self-overwriting archive, one `extractall` attempt (with the path label,
the password used, the recursion depth of the call, the attempt number and
whether it succeeded), and the two log-and-skip handlers of the
nested-archive loop. -/
inductive ZEvent where
  | moved (src dst : String)
  | extractall (path pwd : String) (depth attempt : Nat) (ok : Bool)
  | logWarnBadNested (name : String)
  | logErrRuntimeNested (name : String)
deriving DecidableEq

/-- One step of the password-normalization loop of `extract_zip`
(lines 211-219 of the source): for an encrypted member, an empty password
is replaced by the default `b"infected"`. -/
def password_step (pwd : String) (zi : String × Bool) : String :=
  if zi.2 && (pwd == "" || pwd == "infected") then
    (if pwd == "" then "infected" else pwd)
  else pwd

/-- The password `extract_zip` actually hands to `extractall` after its
`for zip_info in archive.infolist()` normalization loop. -/
def effective_password (entries : List (String × Bool)) (password : String) : String :=
  entries.foldl password_step password

/-- Embedding of `is_overwritten(zip_path)`.  Note that in the source the
`ZipFile(zip_path, "r")` open sits outside the `try`, so a file that cannot
be opened raises the raw `FileNotFoundError`/`BadZipfile`; the
`except BadZipfile` that re-raises `CuckooPackageError` guards only the
`namelist` comparison, which performs no parsing and cannot raise
`BadZipfile`, hence no `cuckooPackageError` outcome appears here. -/
def is_overwritten (fs : String → FileModel) (zip_path : String) : Except PyExc Bool :=
  match fs zip_path with
  | FileModel.missing => Except.error PyExc.fileNotFound
  | FileModel.notZip => Except.error PyExc.badZipfile
  | FileModel.zip z => Except.ok (z.names.contains (os_path_basename zip_path))

/-- Embedding of the `for name in archive.namelist()` loop in the `finally`
block of `extract_zip`: members named `*.zip` are recursively extracted via
`child`; a `BadZipfile` or `RuntimeError` from the recursive call is logged
and swallowed, any other exception propagates at once (aborting the
remaining siblings). -/
def nested_loop (child : String → String → List ZEvent × Option PyExc)
    (extract_path pwd : String) : List String → List ZEvent × Option PyExc
  | [] => ([], Option.none)
  | name :: rest =>
    if str_ends_with name ".zip" then
      let r := child (os_path_join extract_path name) pwd
      match r.2 with
      | Option.none =>
        let rr := nested_loop child extract_path pwd rest
        (r.1 ++ rr.1, rr.2)
      | Option.some PyExc.badZipfile =>
        let rr := nested_loop child extract_path pwd rest
        (r.1 ++ ZEvent.logWarnBadNested name :: rr.1, rr.2)
      | Option.some (PyExc.runtimeError m) =>
        let _ := m
        let rr := nested_loop child extract_path pwd rest
        (r.1 ++ ZEvent.logErrRuntimeNested name :: rr.1, rr.2)
      | Option.some e => (r.1, Option.some e)
    else nested_loop child extract_path pwd rest

/-- The body of `extract_zip`, parameterized by the recursive extractor for
nested members (`Option.none` when `recursion_depth < 4` fails and the
`finally` block does not recurse).  Mirrors the source: overwrite guard and
rename; password normalization; `extractall` with one retry on
`RuntimeError` (`BadZipfile` becomes `CuckooPackageError "Invalid Zip file"`,
a second `RuntimeError` becomes `CuckooPackageError "Unable to extract Zip
file: ..."`); then the `finally` nested-archive loop, whose own exception,
if any, replaces the pending one (Python `finally` semantics).  As the
moved archive keeps its contents, the model reads `fs zip_path` for the
renamed file as well. -/
def extract_zip_body (fs : String → FileModel)
    (child : Option (String → String → List ZEvent × Option PyExc))
    (zip_path extract_path password : String) (depth : Nat) :
    List ZEvent × Option PyExc :=
  match is_overwritten fs zip_path with
  | Except.error e => ([], Option.some e)
  | Except.ok ovr =>
    let zp2 := if ovr then zip_path ++ ".old" else zip_path
    let ev0 : List ZEvent := if ovr then [ZEvent.moved zip_path zp2] else []
    match fs zip_path with
    | FileModel.missing => (ev0, Option.some PyExc.fileNotFound)
    | FileModel.notZip => (ev0, Option.some PyExc.badZipfile)
    | FileModel.zip z =>
      let pwd := effective_password z.entries password
      let tryRes : List ZEvent × Option PyExc :=
        match z.extract1 pwd with
        | Option.none => ([ZEvent.extractall zp2 pwd depth 1 true], Option.none)
        | Option.some ExtractErr.badZip =>
          ([ZEvent.extractall zp2 pwd depth 1 false],
           Option.some (PyExc.cuckooPackageError "Invalid Zip file"))
        | Option.some (ExtractErr.runtime _) =>
          match z.extract2 pwd with
          | Option.none =>
            ([ZEvent.extractall zp2 pwd depth 1 false, ZEvent.extractall zp2 pwd depth 2 true],
             Option.none)
          | Option.some ExtractErr.badZip =>
            ([ZEvent.extractall zp2 pwd depth 1 false, ZEvent.extractall zp2 pwd depth 2 false],
             Option.some PyExc.badZipfile)
          | Option.some (ExtractErr.runtime m2) =>
            ([ZEvent.extractall zp2 pwd depth 1 false, ZEvent.extractall zp2 pwd depth 2 false],
             Option.some (PyExc.cuckooPackageError ("Unable to extract Zip file: " ++ m2)))
      let finRes : List ZEvent × Option PyExc :=
        match child with
        | Option.none => ([], Option.none)
        | Option.some ch => nested_loop ch extract_path pwd z.names
      (ev0 ++ tryRes.1 ++ finRes.1,
       match finRes.2 with
       | Option.some e => Option.some e
       | Option.none => tryRes.2)

/-- `extract_zip` with the remaining recursion budget `k = 4 -
recursion_depth` made explicit so the recursion is structural: the source
guard `recursion_depth < 4` is exactly `4 - recursion_depth ≠ 0`, and the
recursive call at `recursion_depth + 1` has budget `k - 1`. -/
def extract_zip_k (fs : String → FileModel) :
    Nat → String → String → String → Nat → List ZEvent × Option PyExc
  | 0, zp, ep, pw, d => extract_zip_body fs Option.none zp ep pw d
  | Nat.succ k, zp, ep, pw, d =>
    extract_zip_body fs (Option.some fun p pw2 => extract_zip_k fs k p ep pw2 (d + 1))
      zp ep pw d

/-- Embedding of `extract_zip(zip_path, extract_path, password=b"infected",
recursion_depth=1)`. -/
def extract_zip (fs : String → FileModel) (zip_path extract_path : String)
    (password : String := "infected") (recursion_depth : Nat := 1) :
    List ZEvent × Option PyExc :=
  extract_zip_k fs (4 - recursion_depth) zip_path extract_path password recursion_depth

/-- The source's recursion guard `recursion_depth < 4` agrees with the
non-exhaustion of the explicit budget `4 - recursion_depth`. -/
theorem recursion_guard_iff (d : Nat) : 0 < 4 - d ↔ d < 4 := by omega

/-! ## Listing parser: `get_file_names`

`FILE_NAME_REGEX = "[\s]{2}((?:[a-zA-Z0-9\.\-,_\\\\]+( [a-zA-Z0-9\.\-,_\\\\]+)?)+)\r"`:
two whitespace characters, a capture group that is one or more blocks —
each block a nonempty run of name characters, optionally followed by one
space and a second nonempty run — and a terminating `\r`.  Backtracking
over the block decomposition matters: a name with several internal single
spaces is matched by splitting runs across blocks (for instance
`my cool file.exe` as the blocks `my c` and `ool file.exe`), so the
embedding below enumerates every block decomposition explicitly.  Because
the group's alphabet (name characters and the space) excludes `\r`, a
successful match necessarily extends over the whole maximal name/space
segment after the two whitespace characters and requires the very next
character to be `\r`; the capture is therefore that segment. -/

/-- Characters of the `[a-zA-Z0-9\.\-,_\\\\]` class of `FILE_NAME_REGEX`. -/
def isNameChar (c : Char) : Bool :=
  c.isAlphanum || c == '.' || c == '-' || c == ',' || c == '_' || c == '\\'

/-- Characters matched by the regex class `[\s]`. -/
def isSpaceChar (c : Char) : Bool :=
  c == ' ' || c == '\t' || c == '\n' || c == '\r' || c == '\x0b' || c == '\x0c'

/-- Every way `[a-zA-Z0-9\.\-,_\\\\]+` can match a nonempty prefix of the
input: the pairs (matched run, remaining characters), shortest run
first. -/
def nplus_splits : List Char → List (List Char × List Char)
  | [] => []
  | c :: rest =>
    if isNameChar c then
      ([c], rest) :: (nplus_splits rest).map fun pr => (c :: pr.1, pr.2)
    else []

/-- Every way one block `[a-zA-Z0-9\.\-,_\\\\]+( [a-zA-Z0-9\.\-,_\\\\]+)?`
can match a prefix of the input. -/
def block_splits (cs : List Char) : List (List Char × List Char) :=
  (nplus_splits cs).foldr
    (fun pr acc =>
      (pr.1, pr.2) ::
        ((match pr.2 with
          | ' ' :: rest2 =>
            (nplus_splits rest2).map fun qr => (pr.1 ++ ' ' :: qr.1, qr.2)
          | _ => []) ++ acc))
    []

/-- Whether `(?:[a-zA-Z0-9\.\-,_\\\\]+( [a-zA-Z0-9\.\-,_\\\\]+)?)+` matches
the WHOLE input, backtracking over every block decomposition.  The fuel
bounds the number of blocks; since every block consumes at least one
character, fuel equal to the input length is enough. -/
def group_matches_fuel : Nat → List Char → Bool
  | 0, _ => false
  | Nat.succ fuel, cs =>
    (block_splits cs).any fun pr => pr.2.isEmpty || group_matches_fuel fuel pr.2

/-- Whole-input match of the capture group of `FILE_NAME_REGEX`. -/
def group_matches (cs : List Char) : Bool := group_matches_fuel cs.length cs

/-- Leftmost search for `FILE_NAME_REGEX` over a character list, returning
capture group 1 (the file name): at each start, two whitespace characters,
then the maximal name/space segment, which must match the group and be
followed immediately by `\r`. -/
def search_chars : List Char → Option (List Char)
  | [] => Option.none
  | [_] => Option.none
  | c1 :: c2 :: rest =>
    if isSpaceChar c1 && isSpaceChar c2 then
      let seg := rest.takeWhile fun c => isNameChar c || c == ' '
      let after := rest.drop seg.length
      if group_matches seg then
        match after with
        | '\r' :: _ => Option.some seg
        | _ => search_chars (c2 :: rest)
      else search_chars (c2 :: rest)
    else search_chars (c2 :: rest)

/-- Models `re.search(FILE_NAME_REGEX, line)` followed by `.group(1)`. -/
def search_file_name (line : String) : Option String :=
  (search_chars line.toList).map String.mk

/-- Models the table-header detection of `get_file_names`: all of the
column words (lower-cased) occur as substrings of the lower-cased line. -/
def header_match (line : String) : Bool :=
  ["date", "time", "attr", "size", "compressed", "name"].all fun w =>
    contains_substr (lower_str line) w

/-- The line loop of `get_file_names`, carrying the `in_table` and
`items_under_header` flags and the accumulated file names. -/
def get_file_names_loop : List String → Bool → Bool → List String → List String
  | [], _, _, acc => acc
  | line :: rest, in_table, items, acc =>
    if in_table then
      if contains_substr line "-----" then
        get_file_names_loop rest in_table (if items then false else true) acc
      else if items then
        match search_file_name line with
        | Option.some nm => get_file_names_loop rest in_table items (acc ++ [nm])
        | Option.none => get_file_names_loop rest in_table items acc
      else get_file_names_loop rest in_table items acc
    else
      if header_match line then get_file_names_loop rest true items acc
      else get_file_names_loop rest in_table items acc

/-- Embedding of `get_file_names(seven_zip_path, archive_path)` as a
function of the external tool's decoded stdout (the invocation of
`7z l archive` itself is the collaborator that produced the text). -/
def get_file_names (stdout : String) : List String :=
  get_file_names_loop (split_lines stdout) false false []

/-! ## File classifier: `get_interesting_files` -/

/-- The alternatives of `EXE_REGEX`. -/
def EXE_EXTENSIONS : List String :=
  [".exe", ".dll", ".scr", ".msi", ".bat", ".lnk", ".js", ".jse", ".vbs", ".vbe",
   ".wsf", ".ps1", ".db", ".cmd", ".dat", ".tmp", ".temp", ".doc", ".xls"]

/-- Models `re.search(EXE_REGEX, f)`: `EXE_REGEX` is an alternation of
literal extensions anchored at the end of the string with the IGNORECASE
flag, so it matches exactly when the lower-cased name ends with one of the
(lower-case) extensions. -/
def exe_regex_search (f : String) : Bool :=
  EXE_EXTENSIONS.any fun ext => str_ends_with (lower_str f) ext

/-- Embedding of `get_interesting_files(file_names)`. -/
def get_interesting_files (file_names : List String) : List String :=
  file_names.foldl (fun acc f => if exe_regex_search f then acc ++ [f] else acc) []

/-! ## Execution dispatcher: `ArchivePackage.execute_interesting_file`

The collaborators (`Package.get_path*`, `choose_dll_export`, `is_pe_image`,
reading the file's bytes, `check_file_extension`) and the `self.options`
dictionary are supplied as an environment.  The result is the launcher
invocation handed to `self.execute`, the silent `return` of the content
sniff, or a raised exception. -/

/-- The `self.options` values consulted by the dispatcher
(`options.get` returns `None` for an absent key). -/
structure PackageOptions where
  function : Option String
  arguments : Option String
  dllloader : Option String

/-- Collaborator environment of the dispatcher. -/
structure DispatchEnv where
  get_path : String → String
  get_path_app_in_path : String → String
  get_path_glob : String → Except PyExc String
  choose_dll_export : String → Option String
  is_pe_image : String → Bool
  read_bytes : String → String
  check_file_extension : String → String → String
  options : PackageOptions

/-- Terminal outcome of one dispatch: a launcher invocation
`self.execute(binary, args, target)`, the silent no-action return, or a
raised exception. -/
inductive DispatchResult where
  | launched (binary : String) (args : Option String) (target : String)
  | noAction
  | raised (e : PyExc)
deriving DecidableEq

/-- `PE_INDICATORS = [b"MZ", b"This program cannot be run in DOS mode"]`. -/
def PE_INDICATORS : List String := ["MZ", "This program cannot be run in DOS mode"]

/-- The `.dll/.db/.dat/.tmp/.temp` branch after the content sniff.  In the
source the local variable `function` is assigned only on the `rundll32`
branch; on the `DllRegisterServer`/`regsvr32` branch the subsequent
`dll_args = f'"{file_path}",{function}'` therefore raises
`UnboundLocalError`.  The pair below carries `(rundll32, function)` with
`Option.none` standing for the unassigned local. -/
def dll_branch (env : DispatchEnv) (file_path : String) : DispatchResult :=
  let dll_export := env.choose_dll_export file_path
  let pair : String × Option String :=
    if dll_export == Option.some "DllRegisterServer" then
      (env.get_path "regsvr32.exe", Option.none)
    else
      (env.get_path_app_in_path "rundll32.exe",
       Option.some (Option.getD env.options.function "#1"))
  match pair.2 with
  | Option.none => DispatchResult.raised PyExc.unboundLocalError
  | Option.some function =>
    let dll_args := "\"" ++ file_path ++ "\"," ++ function
    let dll_args :=
      if truthy env.options.arguments then
        dll_args ++ " " ++ Option.getD env.options.arguments ""
      else dll_args
    let rundll32 :=
      if truthy env.options.dllloader then
        os_path_join (os_path_dirname pair.1) (Option.getD env.options.dllloader "")
      else pair.1
    DispatchResult.launched rundll32 (Option.some dll_args) file_path

/-- Embedding of `ArchivePackage.execute_interesting_file(root, file_name,
file_path)`: the extension-ordered dispatch chain of the source. -/
def execute_interesting_file (env : DispatchEnv) (root file_name file_path : String) :
    DispatchResult :=
  let lower := lower_str file_name
  if str_ends_with lower ".lnk" || str_ends_with lower ".bat" || str_ends_with lower ".cmd" then
    DispatchResult.launched (env.get_path "cmd.exe")
      (Option.some ("/c \"cd ^\"" ++ root ++ "^\" && start /wait ^\"^\" ^\"" ++ file_path ++ "^\""))
      file_path
  else if str_ends_with lower ".msi" then
    DispatchResult.launched (env.get_path "msiexec.exe")
      (Option.some ("/I \"" ++ file_path ++ "\"")) file_path
  else if str_ends_with lower ".js" || str_ends_with lower ".jse" || str_ends_with lower ".vbs"
      || str_ends_with lower ".vbe" || str_ends_with lower ".wsf" then
    DispatchResult.launched (env.get_path "cmd.exe")
      (Option.some ("/c \"cd ^\"" ++ root ++ "^\" && " ++ env.get_path_app_in_path "wscript.exe"
        ++ " ^\"" ++ file_path ++ "^\""))
      file_path
  else if str_ends_with lower ".dll" || str_ends_with lower ".db" || str_ends_with lower ".dat"
      || str_ends_with lower ".tmp" || str_ends_with lower ".temp" then
    if !str_ends_with lower ".dll"
        && !(PE_INDICATORS.any fun ind => contains_substr (env.read_bytes file_path) ind) then
      DispatchResult.noAction
    else
      dll_branch env file_path
  else if str_ends_with lower ".ps1" then
    DispatchResult.launched (env.get_path_app_in_path "powershell.exe")
      (Option.some ("-NoProfile -ExecutionPolicy bypass -File \"" ++ file_path ++ "\"")) file_path
  else if str_ends_with lower ".doc" then
    match env.get_path_glob "WINWORD.EXE" with
    | Except.ok word =>
      DispatchResult.launched word (Option.some ("\"" ++ file_path ++ "\" /q")) file_path
    | Except.error (PyExc.cuckooPackageError _) =>
      match env.get_path_glob "WORDVIEW.EXE" with
      | Except.ok word =>
        DispatchResult.launched word (Option.some ("\"" ++ file_path ++ "\" /q")) file_path
      | Except.error e => DispatchResult.raised e
    | Except.error e => DispatchResult.raised e
  else if str_ends_with lower ".xls" then
    match env.get_path_glob "EXCEL.EXE" with
    | Except.ok excel =>
      DispatchResult.launched excel (Option.some ("\"" ++ file_path ++ "\" /q")) file_path
    | Except.error e => DispatchResult.raised e
  else if env.is_pe_image file_path then
    let fp2 := env.check_file_extension file_path ".exe"
    DispatchResult.launched fp2 env.options.arguments fp2
  else
    DispatchResult.launched (env.get_path "cmd.exe")
      (Option.some ("/c \"cd ^\"" ++ root ++ "^\" && start /wait ^\"^\" ^\"" ++ file_path ++ "^\""))
      file_path

/-! ## Claim C8: the file classifier -/

/-- The source's append loop over `file_names` is `List.filter`. -/
theorem interesting_foldl_filter (p : String → Bool) :
    ∀ (l : List String) (acc : List String),
      l.foldl (fun a f => if p f then a ++ [f] else a) acc = acc ++ l.filter p := by
  intro l
  induction l with
  | nil => intro acc; simp
  | cons h t ih =>
    intro acc
    by_cases hp : p h = true <;>
      simp [List.foldl_cons, List.filter_cons, hp, ih]

/-- Claim C8: `get_interesting_files` returns exactly the names whose
suffix case-insensitively matches one of the fixed extensions of
`EXE_REGEX`, preserving input order (it is the pure filter by
`exe_regex_search`); in particular
`["a.txt", "b.exe", "c.DLL", "readme.md"]` yields `["b.exe", "c.DLL"]`. -/
theorem C8_get_interesting_files_is_filter :
    (∀ l : List String, get_interesting_files l = l.filter exe_regex_search) ∧
    get_interesting_files ["a.txt", "b.exe", "c.DLL", "readme.md"] = ["b.exe", "c.DLL"] := by
  constructor
  · intro l
    unfold get_interesting_files
    rw [interesting_foldl_filter]
    simp
  · decide

/-! ## Claims C10 and C5: the external-tool extraction protocol -/

/-- Claim C10: whatever password the caller supplies, `extract_archive`
always makes its first tool invocation with the bare `-p` flag (empty
password); the caller-supplied password appears in an invocation only on
the single retry, which happens exactly when the first attempt's stderr
reports a wrong password. -/
theorem C10_first_invocation_bare_p :
    ∀ (tool : List String → ToolRun) (s a e pw : String),
      (extract_archive tool s a e pw).1 =
        (if contains_substr (tool [s, "x", "-p", "-y", "-o" ++ e, a]).stderr "Wrong password" then
          AEvent.run [s, "x", "-p", "-y", "-o" ++ e, a] ::
            (if path_match_local_temp e then [] else [AEvent.rmtree e]) ++
            [AEvent.run [s, "x", "-p" ++ pw, "-y", "-o" ++ e, a]]
        else [AEvent.run [s, "x", "-p", "-y", "-o" ++ e, a]]) := by
  intro tool s a e pw
  simp only [extract_archive]
  by_cases h1 :
      contains_substr (tool [s, "x", "-p", "-y", "-o" ++ e, a]).stderr "Wrong password" = true
  · by_cases h2 :
        contains_substr (tool [s, "x", "-p" ++ pw, "-y", "-o" ++ e, a]).stderr
          "Wrong password" = true
    · simp [h1, h2]
    · simp [h1, h2]
  · by_cases h3 :
        contains_substr (tool [s, "x", "-p", "-y", "-o" ++ e, a]).stdout
          "Can not open the file as archive" = true
    · simp [h1, h3]
    · simp [h1, h3]

/-- Claim C5 (amended): on a wrong-password report from the first attempt
the destination tree is deleted (unless its path matches `local\temp`) and
the extraction is retried exactly once with the fallback password; a
second wrong-password report raises the wrong-password error.  The
invalid-archive check, however, applies only when the first attempt's
stderr does NOT contain the wrong-password substring (the source uses
`elif`): only then does a "Can not open the file as archive" stdout raise
the invalid-archive error. -/
theorem C5_amended_tool_error_protocol :
    ∀ (tool : List String → ToolRun) (s a e pw : String),
      (contains_substr (tool [s, "x", "-p", "-y", "-o" ++ e, a]).stderr "Wrong password"
          = true →
        (extract_archive tool s a e pw).1 =
          AEvent.run [s, "x", "-p", "-y", "-o" ++ e, a] ::
            (if path_match_local_temp e then [] else [AEvent.rmtree e]) ++
            [AEvent.run [s, "x", "-p" ++ pw, "-y", "-o" ++ e, a]] ∧
        (extract_archive tool s a e pw).2 =
          (if contains_substr (tool [s, "x", "-p" ++ pw, "-y", "-o" ++ e, a]).stderr
              "Wrong password" then
            Option.some (PyExc.exception "Wrong password provided")
          else Option.none)) ∧
      (contains_substr (tool [s, "x", "-p", "-y", "-o" ++ e, a]).stderr "Wrong password"
          = false →
        contains_substr (tool [s, "x", "-p", "-y", "-o" ++ e, a]).stdout
          "Can not open the file as archive" = true →
        (extract_archive tool s a e pw).2 =
          Option.some (PyExc.typeError "Unable to open the file as archive")) := by
  intro tool s a e pw
  constructor
  · intro h1
    by_cases h2 :
        contains_substr (tool [s, "x", "-p" ++ pw, "-y", "-o" ++ e, a]).stderr
          "Wrong password" = true
    · constructor <;> simp [extract_archive, h1, h2]
    · constructor <;> simp [extract_archive, h1, h2]
  · intro h1 h3
    simp [extract_archive, h1, h3]

/-- A tool whose first (bare `-p`) invocation reports BOTH a wrong password
on stderr and "not an archive" on stdout, and whose retry succeeds. -/
def toolC5 : List String → ToolRun := fun argv =>
  if argv.contains "-p" then
    { stdout := "Can not open the file as archive", stderr := "Wrong password" }
  else { stdout := "Everything is Ok", stderr := "" }

/-- Claim C5 counterexample: on `toolC5` the first attempt's stdout
contains the not-a-valid-archive substring, yet `extract_archive` raises
nothing at all (the wrong-password branch takes precedence and the retry
succeeds), contradicting the claim that such stdout always raises the
InvalidArchive-class error. -/
theorem C5_counterexample_invalid_archive_check_skipped :
    contains_substr (toolC5 ["7z", "x", "-p", "-y", "-oout", "a.7z"]).stdout
      "Can not open the file as archive" = true ∧
    (extract_archive toolC5 "7z" "a.7z" "out").2 = Option.none := by
  constructor <;> decide

/-- A tool that reports a wrong password on every invocation. -/
def toolC5w : List String → ToolRun := fun _ => { stdout := "", stderr := "Wrong password" }

/-- Witness for `C5_amended_tool_error_protocol` at a concrete tool whose
retry also fails: the tree is deleted, the retry runs with the fallback
password, and the wrong-password error is raised. -/
theorem C5_amended_witness :
    (extract_archive toolC5w "7z" "a.7z" "out").1 =
      [AEvent.run ["7z", "x", "-p", "-y", "-oout", "a.7z"], AEvent.rmtree "out",
       AEvent.run ["7z", "x", "-pinfected", "-y", "-oout", "a.7z"]] ∧
    (extract_archive toolC5w "7z" "a.7z" "out").2 =
      Option.some (PyExc.exception "Wrong password provided") := by
  have h := (C5_amended_tool_error_protocol toolC5w "7z" "a.7z" "out" "infected").1 (by decide)
  constructor
  · rw [h.1]; decide
  · rw [h.2]; decide

/-! ## Claim C3: failure of the overwrite-guard's read-only open -/

/-- A path holding a file that is not a valid ZIP container. -/
def fsC3 : String → FileModel := fun p =>
  if p == "bad.zip" then FileModel.notZip else FileModel.missing

/-- Claim C3 counterexample: when the overwrite-guard's read-only open
fails on a non-ZIP file, `extract_zip` raises the raw `BadZipfile`, which
is not the `CuckooPackageError` (InvalidArchive) class the claim
requires. -/
theorem C3_counterexample_raw_badzipfile :
    (extract_zip fsC3 "bad.zip" "out").2 = Option.some PyExc.badZipfile ∧
    ∀ m : String, Option.some PyExc.badZipfile ≠ Option.some (PyExc.cuckooPackageError m) := by
  constructor
  · decide
  · intro m
    simp

/-- Claim C3 (amended): an archive whose container cannot be opened during
the overwrite-guard's initial read-only open makes `extract_zip` fail with
the raw `BadZipfile` exception — the source's `BadZipfile` →
`CuckooPackageError` conversion inside `is_overwritten` guards only the
`namelist` comparison, not the open. -/
theorem C3_amended_open_failure_is_badzipfile (fs : String → FileModel)
    (zp ep pw : String) (d : Nat) (h : fs zp = FileModel.notZip) :
    extract_zip fs zp ep pw d = ([], Option.some PyExc.badZipfile) := by
  unfold extract_zip
  cases h4 : 4 - d with
  | zero => simp [extract_zip_k, extract_zip_body, is_overwritten, h]
  | succ k => simp [extract_zip_k, extract_zip_body, is_overwritten, h]

/-- Witness for `C3_amended_open_failure_is_badzipfile` at a concrete
filesystem and depth. -/
theorem C3_amended_witness :
    extract_zip fsC3 "bad.zip" "o" "p" 2 = ([], Option.some PyExc.badZipfile) :=
  C3_amended_open_failure_is_badzipfile fsC3 "bad.zip" "o" "p" 2 rfl

/-! ## Claim C6: password normalization -/

/-- The normalization loop never changes a non-empty password. -/
theorem password_step_of_ne (pwd : String) (zi : String × Bool) (h : pwd ≠ "") :
    password_step pwd zi = pwd := by
  have hb : (pwd == "") = false := by simpa using h
  simp [password_step, hb]

/-- `effective_password` leaves every non-empty password unchanged. -/
theorem effective_password_of_ne (entries : List (String × Bool)) (pwd : String)
    (h : pwd ≠ "") : effective_password entries pwd = pwd := by
  induction entries with
  | nil => rfl
  | cons e t ih =>
    unfold effective_password at *
    rw [List.foldl_cons, password_step_of_ne pwd e h]
    exact ih

/-- With at least one encrypted member, the empty password is normalized to
the default `infected`. -/
theorem effective_password_empty_encrypted :
    ∀ entries : List (String × Bool), entries.any Prod.snd = true →
      effective_password entries "" = "infected" := by
  intro entries
  induction entries with
  | nil => intro h; simp at h
  | cons e t ih =>
    intro h
    unfold effective_password
    rw [List.foldl_cons]
    cases hb : e.2 with
    | true =>
      rw [show password_step "" e = "infected" from by simp [password_step, hb]]
      exact effective_password_of_ne t "infected" (by decide)
    | false =>
      rw [show password_step "" e = "" from by simp [password_step, hb]]
      refine ih ?_
      simpa [List.any_cons, hb] using h

/-- With no encrypted member, any password is left unchanged. -/
theorem effective_password_no_encrypted :
    ∀ (entries : List (String × Bool)) (pwd : String), entries.any Prod.snd = false →
      effective_password entries pwd = pwd := by
  intro entries
  induction entries with
  | nil => intro pwd _; rfl
  | cons e t ih =>
    intro pwd h
    rw [List.any_cons, Bool.or_eq_false_iff] at h
    unfold effective_password
    rw [List.foldl_cons, show password_step pwd e = pwd from by simp [password_step, h.1]]
    exact ih pwd h.2

/-- Recognizer for `extractall` trace events. -/
def is_extract_event : ZEvent → Bool
  | ZEvent.extractall _ _ _ _ _ => true
  | _ => false

/-- The first `extractall` event of `extract_zip_body` on a readable
archive is the attempt-1 extraction with the normalized password. -/
theorem extract_zip_body_first_extract (fs : String → FileModel)
    (child : Option (String → String → List ZEvent × Option PyExc))
    (zp ep pw : String) (d : Nat) (z : ZipModel) (hz : fs zp = FileModel.zip z) :
    ∃ zp2 ok, ((extract_zip_body fs child zp ep pw d).1.find? is_extract_event)
      = Option.some (ZEvent.extractall zp2 (effective_password z.entries pw) d 1 ok) := by
  have hog : is_overwritten fs zp = Except.ok (z.names.contains (os_path_basename zp)) := by
    simp [is_overwritten, hz]
  cases hov : z.names.contains (os_path_basename zp) with
  | true =>
    cases he : z.extract1 (effective_password z.entries pw) with
    | none =>
      refine ⟨zp ++ ".old", true, ?_⟩
      simp only [extract_zip_body, hog, hov, hz, he]
      rfl
    | some err =>
      cases err with
      | badZip =>
        refine ⟨zp ++ ".old", false, ?_⟩
        simp only [extract_zip_body, hog, hov, hz, he]
        rfl
      | runtime m =>
        refine ⟨zp ++ ".old", false, ?_⟩
        simp only [extract_zip_body, hog, hov, hz, he]
        cases he2 : z.extract2 (effective_password z.entries pw) with
        | none => simp only [he2]; rfl
        | some err2 => cases err2 <;> (simp only [he2]; rfl)
  | false =>
    cases he : z.extract1 (effective_password z.entries pw) with
    | none =>
      refine ⟨zp, true, ?_⟩
      simp only [extract_zip_body, hog, hov, hz, he]
      rfl
    | some err =>
      cases err with
      | badZip =>
        refine ⟨zp, false, ?_⟩
        simp only [extract_zip_body, hog, hov, hz, he]
        rfl
      | runtime m =>
        refine ⟨zp, false, ?_⟩
        simp only [extract_zip_body, hog, hov, hz, he]
        cases he2 : z.extract2 (effective_password z.entries pw) with
        | none => simp only [he2]; rfl
        | some err2 => cases err2 <;> (simp only [he2]; rfl)

/-- Claim C6: for any archive opened by `extract_zip`, the password handed
to `extractall` is `effective_password` of the caller's password, and that
normalization (i) turns the empty password into the literal default
`infected` as soon as some member has the encrypted flag, (ii) leaves any
non-empty password unchanged, and (iii) leaves every password unchanged
when no member is encrypted. -/
theorem C6_password_normalization :
    ∀ (fs : String → FileModel) (zp ep pw : String) (d : Nat) (z : ZipModel),
      fs zp = FileModel.zip z →
      (∃ zp2 ok, ((extract_zip fs zp ep pw d).1.find? is_extract_event)
          = Option.some (ZEvent.extractall zp2 (effective_password z.entries pw) d 1 ok)) ∧
      (z.entries.any Prod.snd = true → effective_password z.entries "" = "infected") ∧
      (pw ≠ "" → effective_password z.entries pw = pw) ∧
      (z.entries.any Prod.snd = false → effective_password z.entries pw = pw) := by
  intro fs zp ep pw d z hz
  refine ⟨?_, effective_password_empty_encrypted z.entries,
    effective_password_of_ne z.entries pw, effective_password_no_encrypted z.entries pw⟩
  unfold extract_zip
  cases h4 : 4 - d with
  | zero =>
    simp only [extract_zip_k]
    exact extract_zip_body_first_extract fs Option.none zp ep pw d z hz
  | succ k =>
    simp only [extract_zip_k]
    exact extract_zip_body_first_extract fs _ zp ep pw d z hz

/-- A concrete encrypted archive model. -/
def zC6 : ZipModel :=
  { entries := [("f.txt", true)], extract1 := fun _ => Option.none,
    extract2 := fun _ => Option.none }

/-- A filesystem holding the encrypted archive `enc.zip`. -/
def fsC6 : String → FileModel := fun p =>
  if p == "enc.zip" then FileModel.zip zC6 else FileModel.missing

/-- Witness for `C6_password_normalization`: on an encrypted archive
extracted with the empty password, the attempt-1 `extractall` uses the
normalized password, and that normalized password is `infected`. -/
theorem C6_witness :
    (∃ zp2 ok, ((extract_zip fsC6 "enc.zip" "d" "" 1).1.find? is_extract_event)
        = Option.some (ZEvent.extractall zp2 (effective_password zC6.entries "") 1 1 ok)) ∧
    effective_password zC6.entries "" = "infected" := by
  have h := C6_password_normalization fsC6 "enc.zip" "d" "" 1 zC6 rfl
  exact ⟨h.1, h.2.1 (by decide)⟩

/-! ## Claims C7 and C1: the `.dll/.db/.dat/.tmp/.temp` dispatch branch -/

/-- Claim C7: a dispatched file whose (lower-cased) name ends in
`.db/.dat/.tmp/.temp` but not `.dll` (and matches no earlier branch), and
whose bytes contain neither the `MZ` signature nor the DOS-mode text,
produces no launch action and no error. -/
theorem C7_non_dll_without_pe_signature_no_action :
    ∀ (env : DispatchEnv) (root fn fp : String),
      (str_ends_with (lower_str fn) ".lnk" || str_ends_with (lower_str fn) ".bat"
        || str_ends_with (lower_str fn) ".cmd") = false →
      str_ends_with (lower_str fn) ".msi" = false →
      (str_ends_with (lower_str fn) ".js" || str_ends_with (lower_str fn) ".jse"
        || str_ends_with (lower_str fn) ".vbs" || str_ends_with (lower_str fn) ".vbe"
        || str_ends_with (lower_str fn) ".wsf") = false →
      (str_ends_with (lower_str fn) ".db" || str_ends_with (lower_str fn) ".dat"
        || str_ends_with (lower_str fn) ".tmp" || str_ends_with (lower_str fn) ".temp")
        = true →
      str_ends_with (lower_str fn) ".dll" = false →
      (PE_INDICATORS.any fun ind => contains_substr (env.read_bytes fp) ind) = false →
      execute_interesting_file env root fn fp = DispatchResult.noAction := by
  intro env root fn fp h1 h2 h3 h4 hdll hpe
  rw [Bool.or_eq_false_iff, Bool.or_eq_false_iff] at h1
  rw [Bool.or_eq_false_iff, Bool.or_eq_false_iff, Bool.or_eq_false_iff,
    Bool.or_eq_false_iff] at h3
  simp [execute_interesting_file, h1.1.1, h1.1.2, h1.2, h2, h3.1.1.1.1, h3.1.1.1.2,
    h3.1.1.2, h3.1.2, h3.2, h4, hdll, hpe]

/-- Environment for the `lib.dat`/`GIF89a` scenario of the spec. -/
def envC7 : DispatchEnv :=
  { get_path := fun s => "C:\\Windows\\System32\\" ++ s,
    get_path_app_in_path := fun s => "C:\\Windows\\System32\\" ++ s,
    get_path_glob := fun _ => Except.error (PyExc.cuckooPackageError "Unable to find glob"),
    choose_dll_export := fun _ => Option.none,
    is_pe_image := fun _ => false,
    read_bytes := fun _ => "GIF89a",
    check_file_extension := fun p _ => p,
    options :=
      { function := Option.none, arguments := Option.none, dllloader := Option.none } }

/-- Witness for `C7_non_dll_without_pe_signature_no_action`: dispatching
`lib.dat` whose first bytes are `GIF89a` yields no action. -/
theorem C7_witness :
    execute_interesting_file envC7 "C:\\sample" "lib.dat" "C:\\sample\\lib.dat"
      = DispatchResult.noAction :=
  C7_non_dll_without_pe_signature_no_action envC7 "C:\\sample" "lib.dat" "C:\\sample\\lib.dat"
    (by decide) (by decide) (by decide) (by decide) (by decide) (by decide)

/-- Claim C1 (code bug): for a `.dll` file whose inspected export is
`DllRegisterServer`, `execute_interesting_file` does NOT launch
`regsvr32.exe` — it raises `UnboundLocalError`, because the local variable
`function` is assigned only on the `rundll32` branch yet is read
unconditionally when `dll_args` is built. -/
theorem C1_dllregisterserver_raises_unbound_local :
    ∀ (env : DispatchEnv) (root fn fp : String),
      (str_ends_with (lower_str fn) ".lnk" || str_ends_with (lower_str fn) ".bat"
        || str_ends_with (lower_str fn) ".cmd") = false →
      str_ends_with (lower_str fn) ".msi" = false →
      (str_ends_with (lower_str fn) ".js" || str_ends_with (lower_str fn) ".jse"
        || str_ends_with (lower_str fn) ".vbs" || str_ends_with (lower_str fn) ".vbe"
        || str_ends_with (lower_str fn) ".wsf") = false →
      str_ends_with (lower_str fn) ".dll" = true →
      env.choose_dll_export fp = Option.some "DllRegisterServer" →
      execute_interesting_file env root fn fp = DispatchResult.raised PyExc.unboundLocalError := by
  intro env root fn fp h1 h2 h3 hdll hexp
  rw [Bool.or_eq_false_iff, Bool.or_eq_false_iff] at h1
  rw [Bool.or_eq_false_iff, Bool.or_eq_false_iff, Bool.or_eq_false_iff,
    Bool.or_eq_false_iff] at h3
  simp [execute_interesting_file, dll_branch, h1.1.1, h1.1.2, h1.2, h2, h3.1.1.1.1,
    h3.1.1.1.2, h3.1.1.2, h3.1.2, h3.2, hdll, hexp]

/-- Environment whose export inspector reports `DllRegisterServer`. -/
def envC1 : DispatchEnv :=
  { get_path := fun s => "C:\\Windows\\System32\\" ++ s,
    get_path_app_in_path := fun s => "C:\\Windows\\System32\\" ++ s,
    get_path_glob := fun _ => Except.error (PyExc.cuckooPackageError "Unable to find glob"),
    choose_dll_export := fun _ => Option.some "DllRegisterServer",
    is_pe_image := fun _ => true,
    read_bytes := fun _ => "MZ binary image",
    check_file_extension := fun p _ => p,
    options :=
      { function := Option.none, arguments := Option.none, dllloader := Option.none } }

/-- Witness for `C1_dllregisterserver_raises_unbound_local` at the concrete
failing input `payload.dll`. -/
theorem C1_witness :
    execute_interesting_file envC1 "C:\\sample" "payload.dll" "C:\\sample\\payload.dll"
      = DispatchResult.raised PyExc.unboundLocalError :=
  C1_dllregisterserver_raises_unbound_local envC1 "C:\\sample" "payload.dll"
    "C:\\sample\\payload.dll" (by decide) (by decide) (by decide) (by decide) rfl

/-! ## Claim C2: isolation of nested-extraction errors -/

/-- A parent archive whose first nested member raises an exception the
nested loop does not handle: `d\a.zip` opens fine but `extractall` fails
twice with `RuntimeError`, so the recursive `extract_zip` call raises
`CuckooPackageError` — which the `except BadZipfile`/`except RuntimeError`
handlers of the loop do not catch.  The sibling `d\b.zip` is valid. -/
def fsC2bad : String → FileModel := fun p =>
  if p == "p.zip" then
    FileModel.zip { entries := [("a.zip", false), ("b.zip", false)],
                    extract1 := fun _ => Option.none, extract2 := fun _ => Option.none }
  else if p == "d\\a.zip" then
    FileModel.zip { entries := [],
                    extract1 := fun _ => Option.some (ExtractErr.runtime "Bad password for file"),
                    extract2 := fun _ => Option.some (ExtractErr.runtime "Bad password for file") }
  else if p == "d\\b.zip" then
    FileModel.zip { entries := [], extract1 := fun _ => Option.none,
                    extract2 := fun _ => Option.none }
  else FileModel.missing

/-- Claim C2 counterexample: the `CuckooPackageError` raised while
recursively extracting the nested member `a.zip` propagates out of the
parent `extract_zip` call, and the sibling nested member `b.zip` is never
extracted. -/
theorem C2_counterexample_cuckoo_error_propagates :
    (extract_zip fsC2bad "p.zip" "d").2 =
      Option.some (PyExc.cuckooPackageError "Unable to extract Zip file: Bad password for file") ∧
    ((extract_zip fsC2bad "p.zip" "d").1.all fun ev =>
      match ev with
      | ZEvent.extractall p _ _ _ _ => p != "d\\b.zip"
      | _ => true) = true := by
  constructor <;> decide

/-- A parent archive whose first nested member is not a valid ZIP (so the
recursive call raises `BadZipfile`) and whose second nested member is
valid. -/
def fsC2good : String → FileModel := fun p =>
  if p == "p.zip" then
    FileModel.zip { entries := [("a.zip", false), ("b.zip", false)],
                    extract1 := fun _ => Option.none, extract2 := fun _ => Option.none }
  else if p == "d\\a.zip" then FileModel.notZip
  else if p == "d\\b.zip" then
    FileModel.zip { entries := [], extract1 := fun _ => Option.none,
                    extract2 := fun _ => Option.none }
  else FileModel.missing

/-- Claim C2 (amended): a `BadZipfile` or `RuntimeError` raised while
recursively extracting a nested `.zip` member is logged and swallowed —
the loop's outcome is that of the remaining siblings, with a log event
inserted after the failed child's events; any other exception (e.g. the
`CuckooPackageError` the recursive call itself produces) propagates.
Concretely, a parent whose first nested member raises `BadZipfile` still
extracts the sibling and returns without error. -/
theorem C2_amended_nested_error_isolation :
    (∀ (child : String → String → List ZEvent × Option PyExc) (ep pw name : String)
        (rest : List String),
      str_ends_with name ".zip" = true →
      ((child (os_path_join ep name) pw).2 = Option.some PyExc.badZipfile ∨
        ∃ m, (child (os_path_join ep name) pw).2 = Option.some (PyExc.runtimeError m)) →
      (nested_loop child ep pw (name :: rest)).2 = (nested_loop child ep pw rest).2 ∧
      ∃ lg, (nested_loop child ep pw (name :: rest)).1 =
        (child (os_path_join ep name) pw).1 ++ lg :: (nested_loop child ep pw rest).1) ∧
    extract_zip fsC2good "p.zip" "d" =
      ([ZEvent.extractall "p.zip" "infected" 1 1 true, ZEvent.logWarnBadNested "a.zip",
        ZEvent.extractall "d\\b.zip" "infected" 2 1 true], Option.none) := by
  constructor
  · intro child ep pw name rest hzip herr
    rcases herr with herr | ⟨m, herr⟩
    · constructor
      · simp only [nested_loop, hzip, if_true, herr]
      · exact ⟨ZEvent.logWarnBadNested name, by simp only [nested_loop, hzip, if_true, herr]⟩
    · constructor
      · simp only [nested_loop, hzip, if_true, herr]
      · exact ⟨ZEvent.logErrRuntimeNested name, by simp only [nested_loop, hzip, if_true, herr]⟩
  · decide

/-- A recursive extractor that always raises `BadZipfile`. -/
def childC2w : String → String → List ZEvent × Option PyExc :=
  fun _ _ => ([], Option.some PyExc.badZipfile)

/-- Witness for `C2_amended_nested_error_isolation`: a nested member whose
recursive extraction raises `BadZipfile` is skipped with a log entry and
the loop's outcome is that of the remaining siblings. -/
theorem C2_amended_witness :
    (nested_loop childC2w "d" "infected" ["n.zip"]).2 =
      (nested_loop childC2w "d" "infected" ([] : List String)).2 ∧
    ∃ lg, (nested_loop childC2w "d" "infected" ["n.zip"]).1 =
      (childC2w (os_path_join "d" "n.zip") "infected").1 ++
        lg :: (nested_loop childC2w "d" "infected" ([] : List String)).1 :=
  C2_amended_nested_error_isolation.1 childC2w "d" "infected" "n.zip" []
    (by decide) (Or.inl rfl)

/-! ## Claim C4: the recursion-depth bound -/

/-- Depth check for one trace event: `extractall` events must sit at depth
at most `n`; other events carry no depth. -/
def event_depth_ok (n : Nat) : ZEvent → Bool
  | ZEvent.extractall _ _ d _ _ => decide (d ≤ n)
  | _ => true

/-- All `extractall` events of a trace sit at depth at most `n`. -/
def events_depth_le (n : Nat) (evs : List ZEvent) : Bool :=
  evs.all (event_depth_ok n)

/-- The nested-member loop only emits events of its children plus log
events, so it preserves any depth bound satisfied by the children. -/
theorem nested_loop_events_depth (n : Nat)
    (child : String → String → List ZEvent × Option PyExc)
    (hchild : ∀ p pw2, events_depth_le n (child p pw2).1 = true) (ep pw : String) :
    ∀ names : List String, events_depth_le n (nested_loop child ep pw names).1 = true := by
  intro names
  induction names with
  | nil => rfl
  | cons name rest ih =>
    simp only [nested_loop]
    by_cases hz : str_ends_with name ".zip" = true
    · simp only [hz, if_true]
      cases hc : (child (os_path_join ep name) pw).2 with
      | none =>
        simp only [events_depth_le, List.all_append] at *
        exact Bool.and_eq_true_iff.mpr ⟨hchild _ _, ih⟩
      | some e =>
        cases e <;>
          simp only [events_depth_le, List.all_append, List.all_cons, event_depth_ok,
            Bool.true_and, Bool.and_eq_true_iff] <;>
          first
            | exact ⟨by have := hchild (os_path_join ep name) pw;
                        simpa [events_depth_le] using this, by simpa [events_depth_le] using ih⟩
            | exact (by have := hchild (os_path_join ep name) pw;
                        simpa [events_depth_le] using this)
    · simp only [hz, if_false]
      exact ih

/-- `extract_zip_body` keeps every `extractall` event at depth at most `n`
whenever the call's own depth is at most `n` and its recursive extractor
does the same. -/
theorem extract_zip_body_events_depth (n : Nat) (fs : String → FileModel)
    (child : Option (String → String → List ZEvent × Option PyExc))
    (zp ep pw : String) (d : Nat) (hd : d ≤ n)
    (hchild : ∀ ch, child = Option.some ch → ∀ p pw2, events_depth_le n (ch p pw2).1 = true) :
    events_depth_le n (extract_zip_body fs child zp ep pw d).1 = true := by
  unfold extract_zip_body
  cases hog : is_overwritten fs zp with
  | error e => rfl
  | ok ovr =>
    cases hfs : fs zp with
    | missing => cases ovr <;> rfl
    | notZip => cases ovr <;> rfl
    | zip z =>
      have hfin : events_depth_le n
          ((match child with
            | Option.none => (([] : List ZEvent), (Option.none : Option PyExc))
            | Option.some ch =>
              nested_loop ch ep (effective_password z.entries pw) z.names).1) = true := by
        cases child with
        | none => rfl
        | some ch =>
          exact nested_loop_events_depth n ch (hchild ch rfl) ep
            (effective_password z.entries pw) z.names
      have hex : ∀ (a : Nat) (ok : Bool) (zzp : String),
          event_depth_ok n
            (ZEvent.extractall zzp (effective_password z.entries pw) d a ok) = true := by
        intro a ok zzp
        simp [event_depth_ok, hd]
      unfold events_depth_le at hfin
      cases ovr <;>
        cases he : z.extract1 (effective_password z.entries pw) with
        | none =>
          simp only [he, events_depth_le, List.all_append, List.all_cons, List.all_nil,
            Bool.and_eq_true, Bool.and_true, Bool.true_and]
          repeat' apply And.intro
          all_goals first | rfl | exact hex _ _ _ | exact hfin
        | some err =>
          cases err with
          | badZip =>
            simp only [he, events_depth_le, List.all_append, List.all_cons, List.all_nil,
              Bool.and_eq_true, Bool.and_true, Bool.true_and]
            repeat' apply And.intro
            all_goals first | rfl | exact hex _ _ _ | exact hfin
          | runtime m =>
            cases he2 : z.extract2 (effective_password z.entries pw) with
            | none =>
              simp only [he, he2, events_depth_le, List.all_append, List.all_cons,
                List.all_nil, Bool.and_eq_true, Bool.and_true, Bool.true_and]
              repeat' apply And.intro
              all_goals first | rfl | exact hex _ _ _ | exact hfin
            | some err2 =>
              cases err2 <;>
                (simp only [he, he2, events_depth_le, List.all_append, List.all_cons,
                  List.all_nil, Bool.and_eq_true, Bool.and_true, Bool.true_and]
                 repeat' apply And.intro
                 all_goals first | rfl | exact hex _ _ _ | exact hfin)

/-- Every `extractall` event of `extract_zip_k` with remaining budget `k`
at depth `d` sits at depth at most `d + k`. -/
theorem extract_zip_k_events_depth (fs : String → FileModel) :
    ∀ (k : Nat) (zp ep pw : String) (d : Nat),
      events_depth_le (d + k) (extract_zip_k fs k zp ep pw d).1 = true := by
  intro k
  induction k with
  | zero =>
    intro zp ep pw d
    simp only [extract_zip_k]
    exact extract_zip_body_events_depth (d + 0) fs Option.none zp ep pw d (by omega)
      (fun ch h => by cases h)
  | succ k ih =>
    intro zp ep pw d
    simp only [extract_zip_k]
    refine extract_zip_body_events_depth (d + (k + 1)) fs _ zp ep pw d (by omega) ?_
    intro ch hch p pw2
    cases hch
    have h := ih p ep pw2 (d + 1)
    have harith : d + 1 + k = d + (k + 1) := by omega
    rw [harith] at h
    exact h

/-- The five-level nested chain of the spec's recursion-depth test:
`a1.zip` contains `a2.zip`, which contains `a3.zip`, and so on down to
`a5.zip` (itself a valid archive holding a plain file). -/
def fsC4 : String → FileModel := fun p =>
  if p == "a1.zip" then
    FileModel.zip { entries := [("a2.zip", false)], extract1 := fun _ => Option.none,
                    extract2 := fun _ => Option.none }
  else if p == "d\\a2.zip" then
    FileModel.zip { entries := [("a3.zip", false)], extract1 := fun _ => Option.none,
                    extract2 := fun _ => Option.none }
  else if p == "d\\a3.zip" then
    FileModel.zip { entries := [("a4.zip", false)], extract1 := fun _ => Option.none,
                    extract2 := fun _ => Option.none }
  else if p == "d\\a4.zip" then
    FileModel.zip { entries := [("a5.zip", false)], extract1 := fun _ => Option.none,
                    extract2 := fun _ => Option.none }
  else if p == "d\\a5.zip" then
    FileModel.zip { entries := [("x.txt", false)], extract1 := fun _ => Option.none,
                    extract2 := fun _ => Option.none }
  else FileModel.missing

/-- Claim C4: starting from `recursion_depth = 1`, no `extractall` of
`extract_zip` ever happens at a recursion depth above 4; on the concrete
five-level chain the expansion stops at depth 4 — the depth-5 member
`a5.zip` is delivered by the depth-4 extraction but is never itself
unpacked (its path appears in no `extractall` event) — and no error is
raised for the stopped recursion. -/
theorem C4_recursion_depth_bounded_by_four :
    (∀ (fs : String → FileModel) (zp ep pw : String),
      events_depth_le 4 (extract_zip fs zp ep pw 1).1 = true) ∧
    extract_zip fsC4 "a1.zip" "d" =
      ([ZEvent.extractall "a1.zip" "infected" 1 1 true,
        ZEvent.extractall "d\\a2.zip" "infected" 2 1 true,
        ZEvent.extractall "d\\a3.zip" "infected" 3 1 true,
        ZEvent.extractall "d\\a4.zip" "infected" 4 1 true], Option.none) := by
  constructor
  · intro fs zp ep pw
    have h := extract_zip_k_events_depth fs 3 zp ep pw 1
    simpa [extract_zip] using h
  · decide

/-! ## Claim C9: the listing parser -/

/-- Lines before the header (none of which look like the header line) are
ignored by the parser loop. -/
theorem gfn_loop_skip_pre (rest : List String) (b : Bool) (acc : List String) :
    ∀ pre : List String, (∀ l ∈ pre, header_match l = false) →
      get_file_names_loop (pre ++ rest) false b acc = get_file_names_loop rest false b acc := by
  intro pre
  induction pre with
  | nil => intro _; rfl
  | cons a t ih =>
    intro h
    have ha := h a (List.mem_cons_self a t)
    have ht : ∀ l ∈ t, header_match l = false := fun l hl => h l (List.mem_cons_of_mem a hl)
    rw [List.cons_append]
    simp only [get_file_names_loop, ha]
    simpa using ih ht

/-- After the closing separator (items flag off), dash-free trailing lines
contribute nothing. -/
theorem gfn_loop_post (acc : List String) :
    ∀ post : List String, (∀ l ∈ post, contains_substr l "-----" = false) →
      get_file_names_loop post true false acc = acc := by
  intro post
  induction post with
  | nil => intro _; rfl
  | cons a t ih =>
    intro h
    have ha := h a (List.mem_cons_self a t)
    have ht : ∀ l ∈ t, contains_substr l "-----" = false :=
      fun l hl => h l (List.mem_cons_of_mem a hl)
    simp only [get_file_names_loop, ha]
    simpa using ih ht

/-- A header line flips `in_table` on. -/
theorem gfn_loop_header (l : String) (rest : List String) (b : Bool) (acc : List String)
    (h : header_match l = true) :
    get_file_names_loop (l :: rest) false b acc = get_file_names_loop rest true b acc := by
  simp [get_file_names_loop, h]

/-- A dashed separator line toggles the items flag. -/
theorem gfn_loop_sep (l : String) (rest : List String) (items : Bool) (acc : List String)
    (h : contains_substr l "-----" = true) :
    get_file_names_loop (l :: rest) true items acc =
      get_file_names_loop rest true (if items then false else true) acc := by
  simp [get_file_names_loop, h]

/-- A member line between the separators appends its extracted name. -/
theorem gfn_loop_member (l : String) (rest : List String) (acc : List String) (nm : String)
    (hd : contains_substr l "-----" = false) (hs : search_file_name l = Option.some nm) :
    get_file_names_loop (l :: rest) true true acc =
      get_file_names_loop rest true true (acc ++ [nm]) := by
  simp [get_file_names_loop, hd, hs]

/-- Claim C9: a listing report made of any non-header preamble, a header
line with the column words, a dashed separator, two carriage-return
terminated member lines, a closing dashed separator and any dash-free
trailing lines parses to exactly the two member names, in order. -/
theorem C9_listing_parser_two_members
    (stdout : String) (pre post : List String) (header sep1 m1 m2 sep2 n1 n2 : String)
    (hsplit : split_lines stdout = pre ++ header :: sep1 :: m1 :: m2 :: sep2 :: post)
    (hpre : ∀ l ∈ pre, header_match l = false)
    (hheader : header_match header = true)
    (hsep1 : contains_substr sep1 "-----" = true)
    (hm1d : contains_substr m1 "-----" = false)
    (hm1 : search_file_name m1 = Option.some n1)
    (hm2d : contains_substr m2 "-----" = false)
    (hm2 : search_file_name m2 = Option.some n2)
    (hsep2 : contains_substr sep2 "-----" = true)
    (hpost : ∀ l ∈ post, contains_substr l "-----" = false) :
    get_file_names stdout = [n1, n2] := by
  unfold get_file_names
  rw [hsplit, gfn_loop_skip_pre _ _ _ pre hpre, gfn_loop_header _ _ _ _ hheader,
    gfn_loop_sep _ _ _ _ hsep1]
  have hit : (if (false : Bool) then false else true) = true := rfl
  rw [hit, gfn_loop_member _ _ _ _ hm1d hm1, gfn_loop_member _ _ _ _ hm2d hm2,
    gfn_loop_sep _ _ _ _ hsep2]
  have hif : (if (true : Bool) then false else true) = false := rfl
  rw [hif, gfn_loop_post _ post hpost]
  rfl

/-- Witness for `C9_listing_parser_two_members` on a concrete synthetic
7-Zip listing report; the first member name contains two internal spaces,
exercising the backtracking block decomposition of `FILE_NAME_REGEX`. -/
theorem C9_witness :
    get_file_names
        "7-Zip 19.00\nDate Time Attr Size Compressed Name\n-------------------\n  my cool file.exe\r\n  readme.txt\r\n-------------------\n2 files"
      = ["my cool file.exe", "readme.txt"] :=
  C9_listing_parser_two_members
    "7-Zip 19.00\nDate Time Attr Size Compressed Name\n-------------------\n  my cool file.exe\r\n  readme.txt\r\n-------------------\n2 files"
    ["7-Zip 19.00"] ["2 files"] "Date Time Attr Size Compressed Name" "-------------------"
    "  my cool file.exe\r" "  readme.txt\r" "-------------------" "my cool file.exe"
    "readme.txt"
    (by decide) (by decide) (by decide) (by decide) (by decide) (by decide) (by decide)
    (by decide) (by decide) (by decide)
